import Mathlib

/-!
Shallow embedding of `src/streamlit_app.py` (Dog Walking Map dashboard).

A raw feed row is a list of string cells, as returned by
`worksheet.get_all_values()` (everything is text).  `load_sheet_data`
builds a pandas DataFrame whose integer index labels are the positions of
the data rows in the raw feed (header excluded); boolean-mask filtering in
pandas preserves these labels, which we model with `List (Nat × Record)`.

Numeric cells are parsed with `pd.to_numeric(..., errors="coerce")`; we
model its string acceptance with a classifier following the grammar of
Python `float()` (which pandas' converter applies to text cells): finite
decimal and scientific literals, with underscores permitted between
digits, yield their exact rational value; `inf`/`infinity` and `nan`
spellings (optionally signed, any case) are recognized as non-finite
parses; every other string is coerced to NaN.  Non-finite parses carry no
`ℚ` value, so in the `ℚ`-valued record model they behave like missing
numbers; the theorems' hypotheses never range over them.
-/

namespace DogMap

abbrev Row := List String
abbrev Feed := List Row

/-- Read cell `j` of a raw row; a missing cell behaves as the empty string
(such rows are dropped by the pipeline either way, exactly as in the code
where short rows become NaN and are removed by `dropna`). -/
def cell (row : Row) (j : Nat) : String := row.getD j ""

/-- Python `str.strip()`: remove leading and trailing whitespace. -/
def pyStrip (s : String) : String :=
  ⟨((s.data.dropWhile Char.isWhitespace).reverse.dropWhile Char.isWhitespace).reverse⟩

/-- Value of a run of decimal digit characters. -/
def digitsVal (cs : List Char) : Nat :=
  cs.foldl (fun acc c => acc * 10 + (c.toNat - 48)) 0

/-- Outcome of running the numeric converter on one text cell: a finite
value, an infinity, a NaN spelling, or an unparseable string (which
`errors="coerce"` also turns into NaN). -/
inductive PyFloatClass where
  | finite (q : ℚ)
  | infinite (neg : Bool)
  | nan
  | invalid
deriving DecidableEq, Repr

/-- Consume a Python `digitpart`: a maximal run of digits in which a
single underscore may stand between two digits.  Returns the digits
collected (underscores removed) and the unconsumed remainder. -/
def digitsGroupGo (acc : List Char) : List Char → List Char × List Char
  | '_' :: c :: rest =>
      if !acc.isEmpty && c.isDigit then digitsGroupGo (acc ++ [c]) rest
      else (acc, '_' :: c :: rest)
  | c :: rest =>
      if c.isDigit then digitsGroupGo (acc ++ [c]) rest
      else (acc, c :: rest)
  | [] => (acc, [])

/-- Exact rational value of a parsed literal: sign, integer digits,
fraction digits, and decimal exponent. -/
def ratOfParts (sign : Int) (ip fp : List Char) (e : Int) : ℚ :=
  let n : Int := sign * (digitsVal (ip ++ fp) : Int)
  let t : Int := e - (fp.length : Int)
  if 0 ≤ t then mkRat (n * ((10 ^ t.toNat : Nat) : Int)) 1
  else mkRat n (10 ^ ((-t).toNat))

/-- Classify the tail after the `e`/`E` marker: an optionally signed
`digitpart` that must end the string. -/
def pyExpTail (sign : Int) (ip fp : List Char) (rest : List Char) : PyFloatClass :=
  let esr : Int × List Char :=
    match rest with
    | '-' :: r => (-1, r)
    | '+' :: r => (1, r)
    | _ => (1, rest)
  let edr := digitsGroupGo [] esr.2
  if edr.1.isEmpty || !edr.2.isEmpty then PyFloatClass.invalid
  else PyFloatClass.finite (ratOfParts sign ip fp (esr.1 * (digitsVal edr.1 : Int)))

/-- The string parser behind `pd.to_numeric(..., errors="coerce")` on a
text cell, following Python's `float()` grammar: surrounding whitespace
stripped, optional sign, then `inf`/`infinity`, `nan`, or a decimal
mantissa (`digits`, `digits.`, `digits.digits` or `.digits`, underscores
between digits) with an optional `e`/`E` exponent.  Anything else is
unparseable and coerced to NaN. -/
def pyParseFloat (s : String) : PyFloatClass :=
  let cs := (pyStrip s).data
  let signBody : Int × List Char :=
    match cs with
    | '-' :: rest => (-1, rest)
    | '+' :: rest => (1, rest)
    | _ => (1, cs)
  let sign := signBody.1
  let body := signBody.2
  let lower := body.map Char.toLower
  if lower == "inf".data || lower == "infinity".data then
    PyFloatClass.infinite (sign == -1)
  else if lower == "nan".data then PyFloatClass.nan
  else
    let ipr := digitsGroupGo [] body
    let ip := ipr.1
    match ipr.2 with
    | [] => if ip.isEmpty then PyFloatClass.invalid else PyFloatClass.finite (ratOfParts sign ip [] 0)
    | '.' :: rest2 =>
        let fpr := digitsGroupGo [] rest2
        let fp := fpr.1
        if ip.isEmpty && fp.isEmpty then PyFloatClass.invalid
        else
          match fpr.2 with
          | [] => PyFloatClass.finite (ratOfParts sign ip fp 0)
          | 'e' :: rest4 => pyExpTail sign ip fp rest4
          | 'E' :: rest4 => pyExpTail sign ip fp rest4
          | _ => PyFloatClass.invalid
    | 'e' :: rest4 => if ip.isEmpty then PyFloatClass.invalid else pyExpTail sign ip [] rest4
    | 'E' :: rest4 => if ip.isEmpty then PyFloatClass.invalid else pyExpTail sign ip [] rest4
    | _ => PyFloatClass.invalid

/-- Finite numeric value of a cell, `none` when the converter yields NaN
or an infinity (the `ℚ`-valued record model carries no infinities; the
theorems' hypotheses never require one). -/
def parseNum (s : String) : Option ℚ :=
  match pyParseFloat s with
  | PyFloatClass.finite q => some q
  | _ => none

/-- One normalized record (one row of the in-memory DataFrame). -/
structure Record where
  address : String
  dogName : String
  district : String
  latitude : ℚ
  longitude : ℚ
  numberOfDogs : ℚ
  filter : String
  today : String
  group : String
  dogId : String
  newAssignment : String
deriving DecidableEq, Repr

/-- Build a Record from a raw row: positional mapping to the 11 expected
headers, numeric coercion of Latitude/Longitude, and `Number of dogs`
coerced with `.fillna(1)` (parse failure becomes the default 1). -/
def mkRecord (row : Row) : Record :=
  { address := cell row 0
    dogName := cell row 1
    district := cell row 2
    latitude := (parseNum (cell row 3)).getD 0
    longitude := (parseNum (cell row 4)).getD 0
    numberOfDogs := (parseNum (cell row 5)).getD 1
    filter := cell row 6
    today := cell row 7
    group := cell row 8
    dogId := cell row 9
    newAssignment := cell row 10 }

/-- The row-survival predicate of `load_sheet_data`, combining its filters:
nonblank Address after strip; Latitude/Longitude nonblank after strip;
Latitude/Longitude not the untrimmed literal "0" (the code compares
`astype(str) != '0'` without stripping); and both coordinates coerce to a
number (rows coercing to NaN are removed by `dropna`). -/
def keepRow (row : Row) : Bool :=
  ((pyStrip (cell row 0)) != "") &&
  ((pyStrip (cell row 3)) != "") && ((pyStrip (cell row 4)) != "") &&
  (cell row 3 != "0") && (cell row 4 != "0") &&
  (parseNum (cell row 3)).isSome && (parseNum (cell row 4)).isSome

/-- The cleaning pipeline of `load_sheet_data` on a successfully fetched
feed: keep surviving rows with their original positions (pandas index
labels) and coerce each to a Record. -/
def normalizeFeed (feed : Feed) : List (Nat × Record) :=
  (feed.enum.filter (fun p => keepRow p.2)).map (fun p => (p.1, mkRecord p.2))

/-- `load_sheet_data`: on any upstream exception the `except` branch
returns an empty DataFrame and a `None` worksheet handle; otherwise the
normalized table and a live handle. -/
def load_sheet_data (fetch : Except String Feed) : List (Nat × Record) × Option Unit :=
  match fetch with
  | Except.ok feed => (normalizeFeed feed, some ())
  | Except.error _ => ([], none)

/-- The curated palette of `generate_colors`, verbatim from the source
(50 entries; note it contains repeated tokens). -/
def vibrant_colors : List String :=
  ["#FF6B6B", "#4ECDC4", "#45B7D1", "#96CEB4", "#FFEAA7",
   "#DDA0DD", "#98D8C8", "#FFD93D", "#6C5CE7", "#A29BFE",
   "#FD79A8", "#FDCB6E", "#6C5CE7", "#00B894", "#E17055",
   "#81ECEC", "#FF7675", "#74B9FF", "#00CEC9", "#FDCB6E",
   "#E84393", "#00B894", "#0984E3", "#6C5CE7", "#FD79A8",
   "#FDCB6E", "#55A3FF", "#FF6348", "#26DE81", "#FC427B",
   "#FD79A8", "#FDCB6E", "#55A3FF", "#FF6348", "#26DE81",
   "#FF9F43", "#70A1FF", "#5352ED", "#FF3838", "#2ED573",
   "#1E90FF", "#FF6B35", "#F7931E", "#FFD23F", "#EE5A24",
   "#009432", "#006BA6", "#0582CA", "#00A8CC", "#F18F01"]

/-- Python float modulus for a positive divisor. -/
def qmod (a b : ℚ) : ℚ := a - b * (⌊a / b⌋ : ℚ)

/-- Python's `"{:.0f}"` rounding: round half to even. -/
def roundHalfEven (q : ℚ) : Int :=
  let f := ⌊q⌋
  let frac := q - (f : ℚ)
  if frac < 1 / 2 then f
  else if frac > 1 / 2 then f + 1
  else if f % 2 = 0 then f else f + 1

/-- Overflow color `f"hsl({hue:.0f}, 85%, 55%)"`. -/
def hslColor (hue : ℚ) : String :=
  "hsl(" ++ toString (roundHalfEven hue) ++ ", 85%, 55%)"

/-- `generate_colors`: enumerate the distinct values in order; value `i`
gets `vibrant_colors[i]` when `i < 50`, otherwise the golden-angle hue
`(base_hue + i * 137.508) % 360`.  The Python dict, built over distinct
keys in insertion order, is modelled as an association list. -/
def generate_colors {α : Type} (unique_values : List α) (base_hue : ℚ) :
    List (α × String) :=
  unique_values.enum.map (fun p =>
    if p.1 < vibrant_colors.length then (p.2, vibrant_colors.getD p.1 "")
    else (p.2, hslColor (qmod (base_hue + (p.1 : ℚ) * (137508 / 1000)) 360)))

/-- Case-insensitive single-character regex match: `.` is the wildcard,
any other character of the pattern is a literal (the fragment of Python
`re` that the search patterns in scope exercise). -/
def charMatches (p c : Char) : Bool := p == '.' || p.toLower == c.toLower

/-- Does the pattern match an initial segment of the text? -/
def reMatchHead : List Char → List Char → Bool
  | [], _ => true
  | _ :: _, [] => false
  | p :: ps, c :: cs => charMatches p c && reMatchHead ps cs

/-- Does the pattern match anywhere in the text (Python `re.search`)? -/
def reSearchAux (pat : List Char) : List Char → Bool
  | [] => reMatchHead pat []
  | c :: cs => reMatchHead pat (c :: cs) || reSearchAux pat cs

/-- `Series.str.contains(pat, case=False, na=False)`: pandas treats the
pattern as a regular expression and tests `re.search` with `IGNORECASE`. -/
def strContainsCI (pat s : String) : Bool := reSearchAux pat.data s.data

/-- The search mask of `main`: `Dog Name`, `Address` or `Filter` contains
the search term (case-insensitive, regex semantics). -/
def searchMask (q : String) (r : Record) : Bool :=
  strContainsCI q r.dogName || strContainsCI q r.address || strContainsCI q r.filter

/-- The search step of `main`: an empty term is falsy and leaves the table
unchanged; otherwise keep the rows satisfying the mask (pandas boolean
filtering preserves both order and index labels). -/
def filterSearch (q : String) (tbl : List (Nat × Record)) : List (Nat × Record) :=
  if q == "" then tbl else tbl.filter (fun p => searchMask q p.2)

/-- Literal case-sensitive list-prefix test (used only to state the
spec-side substring semantics, for comparison with `strContainsCI`). -/
def litPre : List Char → List Char → Bool
  | [], _ => true
  | _ :: _, [] => false
  | a :: as, b :: bs => a == b && litPre as bs

/-- Literal substring occurrence test. -/
def litSub (pat : List Char) : List Char → Bool
  | [] => litPre pat []
  | c :: cs => litPre pat (c :: cs) || litSub pat cs

/-- Spec-side matcher: the case-folded field contains the case-folded
query as a literal substring. -/
def specContains (q s : String) : Bool :=
  litSub (q.data.map Char.toLower) (s.data.map Char.toLower)

/-- Spec-side filter: keep the records where name, address or filter-tag
contains the query as a case-folded substring. -/
def specFilter (q : String) (tbl : List (Nat × Record)) : List (Nat × Record) :=
  tbl.filter (fun p =>
    specContains q p.2.dogName || specContains q p.2.address || specContains q p.2.filter)

/-- The fixed field-to-column mapping of `update_sheet_cell` (columns A
through K, 1-indexed). -/
def col_map : List (String × Nat) :=
  [("Address", 1), ("Dog Name", 2), ("District", 3), ("Latitude", 4), ("Longitude", 5),
   ("Number of dogs", 6), ("Filter", 7), ("Today", 8), ("Group", 9), ("Dog ID", 10),
   ("New Assignment", 11)]

def lookupCol (name : String) : Option Nat := col_map.lookup name

/-- One cell write against the persisted store. -/
structure CellWrite where
  row : Nat
  col : Nat
  value : String
deriving DecidableEq, Repr

/-- `update_sheet_cell`: a recognized column name yields a write at sheet
row `row_idx + 2` (header row plus 0-based to 1-based shift) and the fixed
column index, returning `True`; an unrecognized name performs no write and
returns `False`, modelled as `none`. -/
def update_sheet_cell (row_idx : Nat) (col_name : String) (new_value : String) :
    Option CellWrite :=
  match lookupCol col_name with
  | some c => some ⟨row_idx + 2, c, new_value⟩
  | none => none

/-- The update loop of `main`: count the fields whose write succeeded. -/
def dispatch_updates (row_idx : Nat) (updates : List (String × String)) : Nat :=
  updates.foldl
    (fun acc u => if (update_sheet_cell row_idx u.1 u.2).isSome then acc + 1 else acc) 0

/-! ### Helper lemmas -/

/-- Unfold the row-survival predicate into its propositional components. -/
lemma keepRow_iff (row : Row) :
    keepRow row = true ↔
      (pyStrip (cell row 0)) ≠ "" ∧ (pyStrip (cell row 3)) ≠ "" ∧ (pyStrip (cell row 4)) ≠ "" ∧
      cell row 3 ≠ "0" ∧ cell row 4 ≠ "0" ∧
      (parseNum (cell row 3)).isSome = true ∧ (parseNum (cell row 4)).isSome = true := by
  simp [keepRow, Bool.and_eq_true, bne_iff_ne, and_assoc]

/-- Characterize membership in the normalized table: each entry comes from
the raw feed row at its own label, with the survival predicate satisfied. -/
lemma mem_normalizeFeed {feed : Feed} {i : Nat} {r : Record}
    (h : (i, r) ∈ normalizeFeed feed) :
    ∃ row, feed[i]? = some row ∧ keepRow row = true ∧ r = mkRecord row := by
  unfold normalizeFeed at h
  obtain ⟨p, hp, heq⟩ := List.mem_map.1 h
  obtain ⟨hpe, hpk⟩ := List.mem_filter.1 hp
  obtain ⟨j, row⟩ := p
  obtain ⟨hji, hrr⟩ := Prod.mk.injEq .. ▸ heq
  subst hji
  exact ⟨row, List.mk_mem_enum_iff_getElem?.1 hpe, hpk, hrr.symm⟩

/-- The search step only ever selects entries of its input table. -/
lemma filterSearch_subset {q : String} {tbl : List (Nat × Record)} {p : Nat × Record}
    (h : p ∈ filterSearch q tbl) : p ∈ tbl := by
  unfold filterSearch at h
  by_cases hq : (q == "") = true
  · simpa [hq] using h
  · rw [if_neg hq] at h
    exact (List.mem_filter.1 h).1

/-- A lookup in an association list succeeds exactly when the key occurs. -/
lemma lookup_isSome_iff {l : List (String × Nat)} {a : String} :
    (l.lookup a).isSome = true ↔ a ∈ l.map Prod.fst := by
  induction l with
  | nil => simp [List.lookup]
  | cons p l ih =>
      obtain ⟨k, v⟩ := p
      by_cases h : a = k
      · subst h; simp [List.lookup]
      · have hbe : (a == k) = false := beq_false_of_ne h
        simp [List.lookup, hbe, ih, h]

/-- A write attempt succeeds exactly when the column lookup does. -/
lemma update_isSome (r : Nat) (n v : String) :
    (update_sheet_cell r n v).isSome = (lookupCol n).isSome := by
  unfold update_sheet_cell
  cases lookupCol n <;> rfl

/-- The success-counting fold of `main` counts the satisfying updates. -/
lemma foldl_count (p : String × String → Bool) :
    ∀ (l : List (String × String)) (acc : Nat),
      l.foldl (fun a u => if p u then a + 1 else a) acc = acc + l.countP p := by
  intro l
  induction l with
  | nil => intro acc; simp [List.countP_nil]
  | cons u l ih =>
      intro acc
      rw [List.foldl_cons, List.countP_cons, ih]
      cases h : p u <;> (simp [h]; try omega)

/-- On a pattern free of the wildcard character, anchored regex matching
is literal case-folded list-matching. -/
lemma reMatchHead_eq_litPre (pat : List Char) (hp : ∀ c ∈ pat, (c == '.') = false) :
    ∀ s, reMatchHead pat s = litPre (pat.map Char.toLower) (s.map Char.toLower) := by
  induction pat with
  | nil => intro s; cases s <;> rfl
  | cons p ps ih =>
      intro s
      cases s with
      | nil => rfl
      | cons c cs =>
          have hpd : (p == '.') = false := hp p (List.mem_cons_self p ps)
          have ihs := ih (fun c hc => hp c (List.mem_cons_of_mem p hc)) cs
          simp [reMatchHead, litPre, charMatches, hpd, ihs]

/-- On a pattern free of the wildcard character, regex search is literal
case-folded substring occurrence. -/
lemma reSearchAux_eq_litSub (pat : List Char) (hp : ∀ c ∈ pat, (c == '.') = false) :
    ∀ s, reSearchAux pat s = litSub (pat.map Char.toLower) (s.map Char.toLower) := by
  intro s
  induction s with
  | nil => exact reMatchHead_eq_litPre pat hp []
  | cons c cs ih =>
      simp only [reSearchAux, litSub, List.map_cons, ih,
        reMatchHead_eq_litPre pat hp (c :: cs), List.map_cons]

/-- Entries produced by `enum` carry an index below the list length. -/
lemma enum_fst_lt {α : Type} {l : List α} {p : Nat × α} (h : p ∈ l.enum) :
    p.1 < l.length := by
  obtain ⟨i, a⟩ := p
  have := List.mk_mem_enum_iff_getElem?.1 h
  exact (List.getElem?_eq_some_iff.1 this).1

/-- The first twelve curated palette entries are pairwise distinct (entry
twelve repeats entry eight, so this bound is sharp). -/
lemma vibrant_inj_12 :
    ∀ i, i < 12 → ∀ j, j < 12 →
      vibrant_colors.getD i "" = vibrant_colors.getD j "" → i = j := by
  decide

/-- C1: every edit request on in-memory row `r` with a recognized field
name writes to persisted-store row `r + 2` at the fixed column index of
the field-to-column mapping (Address 1, Dog Name 2, District 3, Latitude
4, Longitude 5, Number of dogs 6, Filter 7, Today 8, Group 9, Dog ID 10,
New Assignment 11); in particular row index 3 with the name field writes
to persisted-store row 5. -/
theorem c1_edit_target :
    (∀ (r : Nat) (name v : String) (c : Nat), lookupCol name = some c →
        update_sheet_cell r name v = some ⟨r + 2, c, v⟩)
    ∧ lookupCol "Address" = some 1 ∧ lookupCol "Dog Name" = some 2
    ∧ lookupCol "District" = some 3 ∧ lookupCol "Latitude" = some 4
    ∧ lookupCol "Longitude" = some 5 ∧ lookupCol "Number of dogs" = some 6
    ∧ lookupCol "Filter" = some 7 ∧ lookupCol "Today" = some 8
    ∧ lookupCol "Group" = some 9 ∧ lookupCol "Dog ID" = some 10
    ∧ lookupCol "New Assignment" = some 11
    ∧ (∀ v, update_sheet_cell 3 "Dog Name" v = some ⟨5, 2, v⟩) := by
  refine ⟨fun r name v c h => ?_, ?_, ?_, ?_, ?_, ?_, ?_, ?_, ?_, ?_, ?_, ?_, fun v => rfl⟩
  · unfold update_sheet_cell
    rw [h]
  all_goals rfl

/-- Witness for C1 at row index 3, field `Dog Name`, value `Rex`. -/
theorem c1_edit_target_witness :
    update_sheet_cell 3 "Dog Name" "Rex" = some ⟨5, 2, "Rex"⟩ :=
  c1_edit_target.1 3 "Dog Name" "Rex" 2 (by decide)

/-- C6: unrecognized field names are skipped without error (the write
returns `none` rather than raising), the reported result is the number of
fields written, and a request of 3 recognized plus 1 unrecognized field
reports 3. -/
theorem c6_unrecognized_skipped (r : Nat) (updates : List (String × String)) :
    dispatch_updates r updates
      = (updates.filter (fun u => decide (u.1 ∈ col_map.map Prod.fst))).length
    ∧ (∀ name v, name ∉ col_map.map Prod.fst → update_sheet_cell r name v = none)
    ∧ dispatch_updates r
        [("Dog Name", "Rex"), ("Address", "1 Elm"), ("Filter", "A"), ("Bogus", "x")] = 3 := by
  refine ⟨?_, ?_, rfl⟩
  · unfold dispatch_updates
    rw [foldl_count, Nat.zero_add, List.countP_eq_length_filter]
    apply congrArg
    apply List.filter_congr
    intro u _
    rw [update_isSome]
    rcases h : decide (u.1 ∈ col_map.map Prod.fst) with _ | _
    · have := of_decide_eq_false h
      exact Bool.eq_false_iff.2 (fun hs => this (lookup_isSome_iff.1 hs))
    · exact lookup_isSome_iff.2 (of_decide_eq_true h)
  · intro name v hname
    have : (lookupCol name).isSome = false :=
      Bool.eq_false_iff.2 (fun hs => hname (lookup_isSome_iff.1 hs))
    have hn : lookupCol name = none :=
      Option.not_isSome_iff_eq_none.1 (by rw [this]; exact Bool.false_ne_true)
    unfold update_sheet_cell
    rw [hn]

/-- Witness for C6: the unrecognized field is skipped and the example
request reports success count 3. -/
theorem c6_unrecognized_skipped_witness :
    update_sheet_cell 0 "Bogus" "x" = none
    ∧ dispatch_updates 0
        [("Dog Name", "Rex"), ("Address", "1 Elm"), ("Filter", "A"), ("Bogus", "x")] = 3 :=
  ⟨(c6_unrecognized_skipped 0 []).2.1 "Bogus" "x" (by decide),
   (c6_unrecognized_skipped 0 []).2.2⟩

/-- C7: when the upstream fetch raises, `load_sheet_data` returns an empty
table and a null worksheet handle instead of raising, while a successful
load always carries a live handle, so "no data available" is
distinguishable from "zero matching rows". -/
theorem c7_fetch_failure :
    (∀ msg, load_sheet_data (Except.error msg) = ([], none))
    ∧ (∀ feed, (load_sheet_data (Except.ok feed)).2 = some ()) :=
  ⟨fun _ => rfl, fun _ => rfl⟩

/-- C8: color assignment is deterministic — equal ordered inputs (and
equal base hue) yield identical value-to-color mappings. -/
theorem c8_colors_deterministic {α : Type} (vs ws : List α) (b₁ b₂ : ℚ)
    (hv : vs = ws) (hb : b₁ = b₂) :
    generate_colors vs b₁ = generate_colors ws b₂ := by
  rw [hv, hb]

/-- Witness for C8 on a concrete two-element value list. -/
theorem c8_colors_deterministic_witness :
    generate_colors ["Filter A", "Filter B"] 0 = generate_colors ["Filter A", "Filter B"] 0 :=
  c8_colors_deterministic ["Filter A", "Filter B"] ["Filter A", "Filter B"] 0 0 rfl rfl

/-- C2 counterexample: the raw coordinate text `"0.0"` parses to zero yet
its row survives normalization, so the output table contains a record
whose latitude is zero, contrary to the claim that no record with
zero-parsing coordinates appears. -/
theorem c2_counterexample :
    (normalizeFeed [["1 Elm", "Rex", "N", "0.0", "1.0", "1", "A", "", "", "", ""]]).map
        (fun p => p.2.latitude) = [0] := by
  decide

/-- C2 amended: every record in the Normalizer's output has latitude and
longitude that parse successfully, and its raw coordinate cells were
nonblank after trimming and not the untrimmed literal `"0"`; coordinates
parsing to zero through other spellings (such as `"0.0"`) are not
excluded. -/
theorem c2_coords_parse {feed : Feed} {i : Nat} {r : Record}
    (h : (i, r) ∈ normalizeFeed feed) :
    (feed[i]?).isSome = true
    ∧ (∀ row, feed[i]? = some row →
        r = mkRecord row
        ∧ parseNum (cell row 3) = some r.latitude
        ∧ parseNum (cell row 4) = some r.longitude
        ∧ (pyStrip (cell row 3)) ≠ "" ∧ (pyStrip (cell row 4)) ≠ ""
        ∧ cell row 3 ≠ "0" ∧ cell row 4 ≠ "0") := by
  obtain ⟨row, hget, hkeep, hr⟩ := mem_normalizeFeed h
  obtain ⟨-, h3t, h4t, h30, h40, h3s, h4s⟩ := (keepRow_iff row).1 hkeep
  refine ⟨by rw [hget]; rfl, fun row' hrow' => ?_⟩
  have hrr : row' = row := by
    rw [hget] at hrow'
    exact Option.some_inj.1 hrow'.symm
  subst hrr
  obtain ⟨la, hla⟩ := Option.isSome_iff_exists.1 h3s
  obtain ⟨lo, hlo⟩ := Option.isSome_iff_exists.1 h4s
  refine ⟨hr, ?_, ?_, h3t, h4t, h30, h40⟩
  · rw [hla, hr]
    simp [mkRecord, hla]
  · rw [hlo, hr]
    simp [mkRecord, hlo]

/-- Witness for C2 amended, on the spec's example row. -/
theorem c2_coords_parse_witness :
    mkRecord ["123 Main St", "Fido", "North", "40.7", "-74.0", "2", "A", "", "", "", ""]
        = mkRecord ["123 Main St", "Fido", "North", "40.7", "-74.0", "2", "A", "", "", "", ""]
    ∧ parseNum "40.7"
        = some (mkRecord
            ["123 Main St", "Fido", "North", "40.7", "-74.0", "2", "A", "", "", "", ""]).latitude
    ∧ parseNum "-74.0"
        = some (mkRecord
            ["123 Main St", "Fido", "North", "40.7", "-74.0", "2", "A", "", "", "", ""]).longitude
    ∧ pyStrip ("40.7" : String) ≠ "" ∧ pyStrip ("-74.0" : String) ≠ ""
    ∧ ("40.7" : String) ≠ "0" ∧ ("-74.0" : String) ≠ "0" :=
  (@c2_coords_parse [["123 Main St", "Fido", "North", "40.7", "-74.0", "2", "A", "", "", "", ""]]
      0 (mkRecord ["123 Main St", "Fido", "North", "40.7", "-74.0", "2", "A", "", "", "", ""])
      (by decide)).2
    ["123 Main St", "Fido", "North", "40.7", "-74.0", "2", "A", "", "", "", ""] rfl

/-- C3 counterexample: a latitude cell of `" 0"` trims to the literal
`"0"`, yet the row survives normalization, because the code compares the
untrimmed string against `"0"`. -/
theorem c3_counterexample :
    pyStrip (cell ["1 Elm", "Rex", "N", " 0", "1.0", "1", "A", "", "", "", ""] 3) = "0"
    ∧ normalizeFeed [["1 Elm", "Rex", "N", " 0", "1.0", "1", "A", "", "", "", ""]] ≠ [] := by
  decide

/-- C3 amended: a raw row is excluded whenever its latitude or longitude
cell is empty after trimming, or is the untrimmed literal `"0"` (the
literal-zero comparison is made on the raw, untrimmed cell). -/
theorem c3_blank_or_zero_dropped {feed : Feed} {i : Nat} {row : Row}
    (hget : feed[i]? = some row)
    (hbad : (pyStrip (cell row 3)) = "" ∨ (pyStrip (cell row 4)) = ""
            ∨ cell row 3 = "0" ∨ cell row 4 = "0") :
    ∀ r, (i, r) ∉ normalizeFeed feed := by
  intro r hr
  obtain ⟨row', hget', hkeep, -⟩ := mem_normalizeFeed hr
  have hrr : row' = row := by
    rw [hget] at hget'
    exact Option.some_inj.1 hget'.symm
  rw [hrr] at hkeep
  obtain ⟨-, h3t, h4t, h30, h40, -, -⟩ := (keepRow_iff row).1 hkeep
  rcases hbad with hb | hb | hb | hb
  · exact h3t hb
  · exact h4t hb
  · exact h30 hb
  · exact h40 hb

/-- Witness for C3 amended: an untrimmed literal-`"0"` latitude is
excluded. -/
theorem c3_blank_or_zero_dropped_witness :
    (0, mkRecord ["1 Elm", "Rex", "N", "0", "1.0", "1", "A", "", "", "", ""]) ∉
      normalizeFeed [["1 Elm", "Rex", "N", "0", "1.0", "1", "A", "", "", "", ""]] :=
  @c3_blank_or_zero_dropped
    [["1 Elm", "Rex", "N", "0", "1.0", "1", "A", "", "", "", ""]]
    0 ["1 Elm", "Rex", "N", "0", "1.0", "1", "A", "", "", "", ""]
    (by decide) (by decide)
    (mkRecord ["1 Elm", "Rex", "N", "0", "1.0", "1", "A", "", "", "", ""])

/-- C10: every record still displayed after search carries, as its index
label, its original position in the raw feed (normalization and filtering
preserve labels), so the Edit Dispatcher's `index + 2` addresses that
record's own original persisted-store row even when earlier rows were
dropped or filtered out. -/
theorem c10_index_is_raw_position {feed : Feed} {q : String} {i : Nat} {r : Record}
    (h : (i, r) ∈ filterSearch q (normalizeFeed feed)) :
    (∃ row, feed[i]? = some row ∧ keepRow row = true ∧ r = mkRecord row)
    ∧ (∀ (name v : String) (c : Nat), lookupCol name = some c →
        update_sheet_cell i name v = some ⟨i + 2, c, v⟩) := by
  refine ⟨mem_normalizeFeed (filterSearch_subset h), fun name v c hc => ?_⟩
  unfold update_sheet_cell
  rw [hc]

/-- Witness for C10: the first raw row is dropped (blank address), the
surviving record keeps label 1, survives the search for `"rex"`, and its
edit targets persisted-store row 3 = 1 + 2. -/
theorem c10_index_is_raw_position_witness :
    update_sheet_cell 1 "Dog Name" "Rex" = some ⟨3, 2, "Rex"⟩ :=
  (@c10_index_is_raw_position
      [["", "", "", "", "", "", "", "", "", "", ""],
       ["5 Oak", "Rex", "N", "1.0", "2.0", "1", "A", "", "", "", ""]]
      "rex" 1
      (mkRecord ["5 Oak", "Rex", "N", "1.0", "2.0", "1", "A", "", "", "", ""])
      (by decide)).2 "Dog Name" "Rex" 2 (by decide)

/-- C4 counterexample: thirteen distinct values stay within the palette
size, yet the values at positions 8 and 12 both receive the palette token
`#6C5CE7`, because the curated palette repeats tokens. -/
theorem c4_counterexample :
    (List.range 13).Nodup ∧ (List.range 13).length ≤ 50
    ∧ (generate_colors (List.range 13) 0).get? 8 = some (8, "#6C5CE7")
    ∧ (generate_colors (List.range 13) 0).get? 12 = some (12, "#6C5CE7") := by
  decide

/-- C4 amended: for at most 50 distinct values the i-th value receives the
i-th curated palette token and every color is drawn from the curated
palette; but because the palette repeats tokens from index 12 onward, two
distinct values are guaranteed distinct colors only when at most 12 values
are supplied. -/
theorem c4_palette_assignment {α : Type} (vs : List α)
    (h50 : vs.length ≤ 50) (hnd : vs.Nodup) :
    generate_colors vs 0 = vs.enum.map (fun p => (p.2, vibrant_colors.getD p.1 ""))
    ∧ (∀ p ∈ generate_colors vs 0, p.2 ∈ vibrant_colors)
    ∧ (vs.length ≤ 12 →
        (generate_colors vs 0).Pairwise (fun a b => a.1 ≠ b.1 ∧ a.2 ≠ b.2)) := by
  have hlen : vibrant_colors.length = 50 := rfl
  have hA : generate_colors vs 0
      = vs.enum.map (fun p => (p.2, vibrant_colors.getD p.1 "")) := by
    unfold generate_colors
    apply List.map_congr_left
    intro p hp
    have hplt : p.1 < vibrant_colors.length := by
      rw [hlen]; exact lt_of_lt_of_le (enum_fst_lt hp) h50
    rw [if_pos hplt]
  refine ⟨hA, ?_, ?_⟩
  · intro p hp
    rw [hA] at hp
    obtain ⟨q, hq, hpq⟩ := List.mem_map.1 hp
    have hq50 : q.1 < vibrant_colors.length := by
      rw [hlen]; exact lt_of_lt_of_le (enum_fst_lt hq) h50
    rw [← hpq]
    show vibrant_colors.getD q.1 "" ∈ vibrant_colors
    rw [List.getD_eq_getElem vibrant_colors "" hq50]
    exact List.getElem_mem hq50
  · intro h12
    have hsnd : (generate_colors vs 0).Pairwise (fun a b => a.2 ≠ b.2) := by
      have hn : ((generate_colors vs 0).map Prod.snd).Nodup := by
        rw [hA, List.map_map]
        have he : (Prod.snd ∘ fun (p : Nat × α) => (p.2, vibrant_colors.getD p.1 ""))
            = (fun (p : Nat × α) => vibrant_colors.getD p.1 "") := rfl
        rw [he]
        have hsplit : (vs.enum.map (fun (p : Nat × α) => vibrant_colors.getD p.1 ""))
            = ((vs.enum.map Prod.fst).map (fun i => vibrant_colors.getD i "")) := by
          rw [List.map_map]; rfl
        rw [hsplit, List.enum_map_fst]
        refine List.Nodup.map_on ?_ (List.nodup_range _)
        intro i hi j hj hij
        exact vibrant_inj_12 i (lt_of_lt_of_le (List.mem_range.1 hi) h12)
          j (lt_of_lt_of_le (List.mem_range.1 hj) h12) hij
      exact List.pairwise_map.1 hn
    have hfst : (generate_colors vs 0).Pairwise (fun a b => a.1 ≠ b.1) := by
      have hn : ((generate_colors vs 0).map Prod.fst).Nodup := by
        rw [hA, List.map_map]
        have he : (Prod.fst ∘ fun (p : Nat × α) => (p.2, vibrant_colors.getD p.1 ""))
            = (Prod.snd : Nat × α → α) := rfl
        rw [he, List.enum_map_snd]
        exact hnd
      exact List.pairwise_map.1 hn
    exact hfst.and hsnd

/-- Witness for C4 amended on twelve distinct values. -/
theorem c4_palette_assignment_witness :
    generate_colors (List.range 12) 0
        = (List.range 12).enum.map (fun p => (p.2, vibrant_colors.getD p.1 ""))
    ∧ (∀ p ∈ generate_colors (List.range 12) 0, p.2 ∈ vibrant_colors)
    ∧ ((List.range 12).length ≤ 12 →
        (generate_colors (List.range 12) 0).Pairwise (fun a b => a.1 ≠ b.1 ∧ a.2 ≠ b.2)) :=
  c4_palette_assignment (List.range 12) (by decide) (by decide)

/-- C5 counterexample: the search term is used as a regular expression,
not a literal substring: the query `"."` selects a record none of whose
searched fields contains a dot, so the Filter Engine's output differs from
the case-folded-substring subsequence the claim describes. -/
theorem c5_counterexample :
    filterSearch "."
        [(0, ⟨"12 Main St", "Fido", "North", 1, 2, 1, "A", "", "", "", ""⟩)]
      = [(0, ⟨"12 Main St", "Fido", "North", 1, 2, 1, "A", "", "", "", ""⟩)]
    ∧ specFilter "."
        [(0, ⟨"12 Main St", "Fido", "North", 1, 2, 1, "A", "", "", "", ""⟩)] = [] := by
  decide

/-- C5 amended: for a non-empty query whose characters carry no regular
expression meaning (alphanumeric or space), the Filter Engine's output is
exactly the order-preserving subsequence of records whose name, address or
filter-tag, case-folded, contains the case-folded query as a substring; a
missing or empty field simply fails the match (never errors).  For general
queries the term is interpreted as a case-insensitive regular
expression. -/
theorem c5_search_is_substring (q : String) (tbl : List (Nat × Record))
    (hne : q ≠ "")
    (hlit : q.data.all (fun c => c.isAlphanum || c == ' ') = true) :
    filterSearch q tbl = specFilter q tbl := by
  have hdot : ∀ c ∈ q.data, (c == '.') = false := by
    intro c hc
    have hca := List.all_eq_true.1 hlit c hc
    cases hbe : c == '.' with
    | false => rfl
    | true =>
        rw [eq_of_beq hbe] at hca
        exact absurd hca (by decide)
  have hq : (q == "") = false := by
    cases hbe : q == "" with
    | false => rfl
    | true => exact absurd (eq_of_beq hbe) hne
  unfold filterSearch specFilter
  rw [if_neg (by rw [hq]; exact Bool.false_ne_true)]
  apply List.filter_congr
  intro p _
  unfold searchMask strContainsCI specContains
  rw [reSearchAux_eq_litSub q.data hdot, reSearchAux_eq_litSub q.data hdot,
    reSearchAux_eq_litSub q.data hdot]

/-- Witness for C5 amended: the literal query `"fido"` filters a concrete
table to the substring-matching subsequence. -/
theorem c5_search_is_substring_witness :
    filterSearch "fido"
        [(0, ⟨"12 Main St", "FIDO", "North", 1, 2, 1, "A", "", "", "", ""⟩),
         (3, ⟨"9 Elm", "Rex", "South", 3, 4, 1, "B", "", "", "", ""⟩)]
      = specFilter "fido"
        [(0, ⟨"12 Main St", "FIDO", "North", 1, 2, 1, "A", "", "", "", ""⟩),
         (3, ⟨"9 Elm", "Rex", "South", 3, 4, 1, "B", "", "", "", ""⟩)] :=
  c5_search_is_substring "fido" _ (by decide) (by decide)

end DogMap
